import Mathlib

/-!
Verification of the opentargets-mcp query core against its specification.

The development shallowly embeds, in Lean, the parts of the repository the
claims are about:

* `src/opentargets_mcp/queries.py` — `OpenTargetsClient.__init__`,
  `_ensure_session`, `_query`, `close` (the cache key, cache read/write,
  response classification and session lifecycle), embedded as explicit
  state-passing functions over a small model of Python values, with a
  heap so that Python reference/aliasing semantics are expressible.
* `src/opentargets_mcp/tools/graphql.py` — `_contains_mutation`,
  `graphql_query` (control flow and effect order), `_wrap_query_result`,
  `_is_retryable_status`, and the summary aggregation of
  `graphql_batch_query`.
* `src/opentargets_mcp/tools/workflows.py` —
  `WorkflowApi.get_drug_repurposing_candidates`, lines 183-270: the
  per-drug aggregation of (target, known-drug) rows, the finalisation of
  each candidate (sorting `supportingTargets`, computing
  `supportingTargetCount`) and the final ranking sort plus truncation.

Numbers that are Python floats in the source (association scores,
timestamps) are embedded as rationals: every operation the embedded code
performs on them (comparison, `max`, sort keys) is order-theoretic, so
the embedding is faithful for those operations.
-/

/-- A model of the Python/JSON values the embedded code manipulates:
`None`, booleans, integers, strings, lists and (insertion-ordered)
string-keyed dictionaries. -/
inductive PyObj where
  | none : PyObj
  | boolean : Bool → PyObj
  | int : ℤ → PyObj
  | str : String → PyObj
  | list : List PyObj → PyObj
  | dict : List (String × PyObj) → PyObj

/-- Python truthiness (`bool(x)`): `None`, `False`, `0`, `""`, `[]` and
`{}` are falsy, everything else is truthy. -/
def pyTruthy : PyObj → Bool
  | .none => false
  | .boolean b => b
  | .int n => n ≠ 0
  | .str s => ¬ s.isEmpty
  | .list xs => ¬ xs.isEmpty
  | .dict kvs => ¬ kvs.isEmpty

/-- `d.get(k)` on a Python dict: the value bound to the first (unique)
occurrence of `k`, if any. -/
def dictGet {α : Type} (kvs : List (String × α)) (k : String) : Option α :=
  match kvs with
  | [] => Option.none
  | (k', v) :: rest => if k' = k then some v else dictGet rest k

/-- `d[k] = v` on a Python dict: overwriting an existing key keeps its
position, a new key is appended (CPython insertion order). -/
def dictSet {α : Type} (kvs : List (String × α)) (k : String) (v : α) :
    List (String × α) :=
  match kvs with
  | [] => [(k, v)]
  | (k', v') :: rest =>
      if k' = k then (k, v) :: rest else (k', v') :: dictSet rest k v

/-- `k in d` on a Python dict. -/
def dictHas {α : Type} (kvs : List (String × α)) (k : String) : Bool :=
  (dictGet kvs k).isSome

mutual

/-- `repr` of the embedded Python values, as used by `str()` on a dict:
`str({'a': 1})` renders each entry as `'key': repr(value)`. Strings are
rendered without escape processing (none of the inputs considered here
contain quotes). -/
def pyRepr : PyObj → String
  | .none => "None"
  | .boolean true => "True"
  | .boolean false => "False"
  | .int n => toString n
  | .str s => "'" ++ s ++ "'"
  | .list xs => "[" ++ String.intercalate ", " (pyReprList xs) ++ "]"
  | .dict kvs => "\x7b" ++ String.intercalate ", " (pyReprDict kvs) ++ "\x7d"

/-- `repr` of each element of a Python list. -/
def pyReprList : List PyObj → List String
  | [] => []
  | x :: xs => pyRepr x :: pyReprList xs

/-- `repr` of each entry of a Python dict. -/
def pyReprDict : List (String × PyObj) → List String
  | [] => []
  | (k, v) :: kvs => ("'" ++ k ++ "': " ++ pyRepr v) :: pyReprDict kvs

end

/-- `str(x)` for the embedded Python values: like `repr` except that a
top-level string is rendered without quotes. -/
def pyStr : PyObj → String
  | .str s => s
  | v => pyRepr v

/-!
## Embedding of `src/opentargets_mcp/queries.py` (`OpenTargetsClient`)

The client state carries an explicit heap (`List PyObj`, addresses are
indices) so that Python's reference semantics — the cache stores and
returns object references, not copies — can be stated. Timestamps are
integers (`time.time()` values supplied explicitly; the embedded
comparisons never involve fractional seconds). The network is an
oracle: the list of outcomes successive `session.post(...)` calls would
produce, each outcome giving the already-JSON-parsed response body.
-/

/-- An `aiohttp.ClientSession`: only its closed flag matters here. -/
structure OldSession where
  closed : Bool
deriving DecidableEq

/-- The fields of `OpenTargetsClient` set in `__init__` (lines 8-13):
`session = None`, `_cache = {}`, `_cache_ttl = 3600`; the cache maps a
key to the address of the stored result object and the insertion
timestamp. `base_url` is a constant and is omitted. -/
structure OldClientState where
  heap : List PyObj
  cache : List (String × (ℕ × ℤ))
  session : Option OldSession

/-- `OpenTargetsClient.__init__` (lines 8-13): no cache-capacity, retry
or TTL parameters exist; the TTL is the fixed constant below. -/
def oldInitialState : OldClientState :=
  { heap := [], cache := [], session := Option.none }

/-- `self._cache_ttl = 3600` (line 13). -/
def oldCacheTtl : ℤ := 3600

/-- `_ensure_session` (lines 15-17): create a session only when the
field is `None`; a present-but-closed session is kept and reused. -/
def oldEnsureSession (st : OldClientState) : OldClientState :=
  match st.session with
  | some _ => st
  | Option.none => { st with session := some { closed := false } }

/-- `close` (lines 351-353): `if self.session: await self.session.close()`.
The session object is closed but `self.session` is left pointing at it —
it is never reset to `None`. -/
def oldClose (st : OldClientState) : OldClientState :=
  match st.session with
  | Option.none => st
  | some s => { st with session := some { s with closed := true } }

/-- `cache_key = f"{query}:{str(variables)}"` (line 22). `variables` is
`None` or an insertion-ordered dict, and `str` of a dict renders the
entries in insertion order. -/
def oldCacheKey (query : String) (vars : Option (List (String × PyObj))) :
    String :=
  query ++ ":" ++
    (match vars with
     | Option.none => "None"
     | some kvs => pyRepr (.dict kvs))

/-- One outcome of `self.session.post(...)` followed by
`await response.json()`: either the parsed JSON object of the body, or a
transport-level exception (connection error / timeout), which the old
code does not catch. -/
inductive OldNetOutcome where
  | response : List (String × PyObj) → OldNetOutcome
  | transportError : String → OldNetOutcome
deriving Inhabited

/-- What `_query` can raise: `Exception(f"GraphQL errors: ...")`
(lines 39-40) or an uncaught transport exception from `aiohttp`. -/
inductive OldQueryError where
  | graphqlErrors : OldQueryError
  | transport : String → OldQueryError
deriving DecidableEq

/-- Observable result of one `_query` call: the state after the call,
the returned object's heap address (or the raised error), how many HTTP
POSTs were issued, which backoff sleeps were performed, and the session
object a POST was issued on (if one was issued). -/
structure OldQueryResult where
  state : OldClientState
  result : Except OldQueryError ℕ
  attempts : ℕ
  sleeps : List ℚ
  usedSession : Option OldSession

/-- The network half of `_query` (lines 28-43): a single POST — there is
no retry loop, no status classification and no backoff. The parsed body
is checked for an `"errors"` key; if present the call raises
(regardless of any usable `"data"` member); otherwise the whole result
object (not its `"data"` portion) is stored in the cache by reference
and that same reference is returned. -/
def oldQueryNetwork (st : OldClientState) (key : String) (now : ℤ)
    (net : List OldNetOutcome) : OldQueryResult :=
  match net.headD (.transportError "connection failed") with
  | .transportError m =>
      { state := st, result := .error (.transport m), attempts := 1,
        sleeps := [], usedSession := st.session }
  | .response body =>
      if dictHas body "errors" then
        { state := st, result := .error .graphqlErrors, attempts := 1,
          sleeps := [], usedSession := st.session }
      else
        let addr := st.heap.length
        { state := { st with
            heap := st.heap ++ [PyObj.dict body],
            cache := dictSet st.cache key (addr, now) },
          result := .ok addr, attempts := 1, sleeps := [],
          usedSession := st.session }

/-- `_query` (lines 19-43): ensure a session, compute the cache key, and
on a fresh-enough cache entry return the stored reference itself (the
expired-entry branch falls through to the network and the stale entry is
only overwritten, never deleted). -/
def oldQuery (st0 : OldClientState) (query : String)
    (vars : Option (List (String × PyObj))) (now : ℤ)
    (net : List OldNetOutcome) : OldQueryResult :=
  let st := oldEnsureSession st0
  let key := oldCacheKey query vars
  match dictGet st.cache key with
  | some (addr, ts) =>
      if now - ts < oldCacheTtl then
        { state := st, result := .ok addr, attempts := 0, sleeps := [],
          usedSession := Option.none }
      else oldQueryNetwork st key now net
  | Option.none => oldQueryNetwork st key now net

/-!
## Embedding of `src/opentargets_mcp/tools/graphql.py`

`_contains_mutation` (lines 307-321) runs `graphql.parse` on the query
and scans the document's operation definitions; on a parse failure it
falls back to `re.search(r"\bmutation\b", s, re.IGNORECASE)`.
`graphql.parse` is a third-party library; it is embedded here for the
fragment the tool exercises: GraphQL ignored tokens (whitespace, commas,
line terminators and `#`-to-end-of-line comments — so leading comment
lines are skipped), and documents that are sequences of operation
definitions (`query`/`mutation`/`subscription` ... selection-set, or a
bare selection-set) and fragment definitions. Anything else fails to
parse, which sends the source to its regex fallback.
-/

/-- GraphQL lexical tokens: names, punctuators, and opaque string /
number literals. -/
inductive GToken where
  | name : String → GToken
  | punct : Char → GToken
  | strLit : GToken
  | numLit : GToken
deriving DecidableEq

/-- First character of a GraphQL name. -/
def isNameStart (c : Char) : Bool := c.isAlpha || c = '_'

/-- Subsequent character of a GraphQL name. -/
def isNameChar (c : Char) : Bool := c.isAlphanum || c = '_'

/-- GraphQL ignored characters: whitespace, line terminators, commas. -/
def isIgnoredChar (c : Char) : Bool :=
  c = ' ' || c = '\t' || c = '\n' || c = '\r' || c = ','

/-- Dropping a prefix never lengthens a list. -/
theorem dropWhileLenLe {α : Type} (p : α → Bool) (l : List α) :
    (l.dropWhile p).length ≤ l.length :=
  (List.dropWhile_sublist _).length_le

/-- The GraphQL lexer for the embedded fragment, structured with a fuel
parameter so it computes by structural recursion (each step consumes at
least one character, so `length + 1` fuel always suffices — see
`gTokenizeAll`). Comments (`#` to end of line) and ignored characters
are skipped; an unterminated string literal is a lex error. -/
def gTokenize : ℕ → List Char → Option (List GToken)
  | 0, _ => Option.none
  | _ + 1, [] => some []
  | fuel + 1, c :: cs =>
    if isIgnoredChar c then gTokenize fuel cs
    else if c = '#' then gTokenize fuel (cs.dropWhile (fun d => d ≠ '\n'))
    else if isNameStart c then
      (gTokenize fuel (cs.dropWhile isNameChar)).map
        (fun ts => .name (String.mk (c :: cs.takeWhile isNameChar)) :: ts)
    else if c = '"' then
      let rest := cs.dropWhile (fun d => d ≠ '"')
      if rest.isEmpty then Option.none
      else (gTokenize fuel rest.tail).map (fun ts => .strLit :: ts)
    else if c.isDigit || c = '-' then
      (gTokenize fuel (cs.dropWhile (fun d => d.isDigit || d = '.'))).map
        (fun ts => .numLit :: ts)
    else
      (gTokenize fuel cs).map (fun ts => .punct c :: ts)

/-- Lex a whole character list: the fuel `length + 1` can never run out
because every step consumes at least one character. -/
def gTokenizeAll (cs : List Char) : Option (List GToken) :=
  gTokenize (cs.length + 1) cs

/-- The three GraphQL operation types. -/
inductive GOperationType where
  | query : GOperationType
  | mutation : GOperationType
  | subscription : GOperationType
deriving DecidableEq

/-- A parsed GraphQL definition, keeping only what `_contains_mutation`
inspects: whether it is an operation (and of which type) or a fragment. -/
inductive GDefinition where
  | operation : GOperationType → GDefinition
  | fragment : GDefinition
deriving DecidableEq

/-- Skip a balanced selection set whose opening brace has already been
consumed (`depth` braces currently open); fails on unbalanced input. -/
def skipSelection : List GToken → ℕ → Option (List GToken)
  | [], _ => Option.none
  | t :: rest, depth =>
    if t = .punct '\x7b' then skipSelection rest (depth + 1)
    else if t = .punct '\x7d' then
      if depth ≤ 1 then some rest else skipSelection rest (depth - 1)
    else skipSelection rest depth

/-- Drop tokens up to and including the opening brace of the next
selection set (operation name, variable definitions and directives are
not themselves brace-delimited in the embedded fragment). -/
def dropToBrace : List GToken → Option (List GToken)
  | [] => Option.none
  | .punct c :: rest => if c = '\x7b' then some rest else dropToBrace rest
  | _ :: rest => dropToBrace rest

/-- The operation keyword, if the name is one (case-sensitive, as in
GraphQL). -/
def gOperationTypeOf : String → Option GOperationType
  | "query" => some .query
  | "mutation" => some .mutation
  | "subscription" => some .subscription
  | _ => Option.none

/-- Parse a token stream as a sequence of GraphQL definitions. `fuel`
bounds the recursion; callers pass `length + 1`, which always suffices
since every definition consumes at least one token. -/
def parseDefs : List GToken → ℕ → Option (List GDefinition)
  | _, 0 => Option.none
  | [], _ + 1 => some []
  | .punct c :: rest, fuel + 1 =>
    if c = '\x7b' then
      (skipSelection rest 1).bind fun rest' =>
        (parseDefs rest' fuel).map (fun ds => .operation .query :: ds)
    else Option.none
  | .name kw :: rest, fuel + 1 =>
    if kw = "fragment" then
      (dropToBrace rest).bind fun r1 =>
        (skipSelection r1 1).bind fun r2 =>
          (parseDefs r2 fuel).map (fun ds => .fragment :: ds)
    else
      (gOperationTypeOf kw).bind fun t =>
        (dropToBrace rest).bind fun r1 =>
          (skipSelection r1 1).bind fun r2 =>
            (parseDefs r2 fuel).map (fun ds => .operation t :: ds)
  | _, _ + 1 => Option.none

/-- `graphql.parse` for the embedded fragment: lex, then parse the
definition sequence. -/
def parseDocument (s : String) : Option (List GDefinition) :=
  (gTokenizeAll s.data).bind fun ts => parseDefs ts (ts.length + 1)

/-- A word character for the purposes of the regex `\b` boundary. -/
def isWordChar (c : Char) : Bool := c.isAlphanum || c = '_'

/-- Does `cs` start with `pat` with a word boundary right after it? -/
def wordAt (pat cs : List Char) : Bool :=
  match pat, cs with
  | [], [] => true
  | [], d :: _ => ¬ isWordChar d
  | p :: ps, d :: ds => p = d && wordAt ps ds
  | _ :: _, [] => false

/-- `re.search(r"\bmutation\b", s, re.IGNORECASE)` (the module constant
`_MUTATION_PATTERN`, line 27): scan for the word `mutation`, case
folded, delimited by word boundaries. `prev` is the character before the
current position, if any. -/
def mutationRegexScan : Option Char → List Char → Bool
  | prev, [] => (prev.map isWordChar).getD false = false && wordAt "mutation".data []
  | prev, c :: cs =>
    ((prev.map isWordChar).getD false = false && wordAt "mutation".data (c :: cs))
      || mutationRegexScan (some c) cs

/-- ASCII lowercasing of one character (the pattern is ASCII, so this
realises `re.IGNORECASE` for it). -/
def asciiLower (c : Char) : Char :=
  if c.isUpper then Char.ofNat (c.toNat + 32) else c

/-- The regex fallback applied to the query text, lowercased first
(equivalent to `re.IGNORECASE` for this pattern). -/
def mutationRegexMatch (s : String) : Bool :=
  mutationRegexScan Option.none (s.data.map asciiLower)

/-- `_contains_mutation` (lines 307-321): parse; on success scan the
operation definitions for a mutation; on a parse failure fall back to
the textual regex scan. -/
def containsMutation (s : String) : Bool :=
  match parseDocument s with
  | some ds =>
      ds.any fun d =>
        match d with
        | .operation .mutation => true
        | _ => false
  | Option.none => mutationRegexMatch s

/-- The error taxonomy of `opentargets_mcp.exceptions` as used by the
tools: `ValidationError` and `NetworkError`. -/
inductive ToolError where
  | validation : String → ToolError
  | network : String → ToolError

/-- The `QueryResult` envelope built by `_wrap_query_result`
(lines 274-281). `result` and `message` are Python values (`None` when
absent). -/
structure Envelope where
  status : String
  result : PyObj
  message : PyObj

/-- `_wrap_query_result` (lines 274-281): `errors`/`data` are fetched
with `.get` (so `None` when missing) and tested for truthiness. -/
def wrapQueryResult (payload : List (String × PyObj)) : Envelope :=
  let errors := (dictGet payload "errors").getD .none
  let data := (dictGet payload "data").getD .none
  if pyTruthy errors && ! pyTruthy data then
    { status := "error", result := .none, message := errors }
  else if pyTruthy errors then
    { status := "warning", result := data, message := errors }
  else
    { status := "success", result := data, message := .none }

/-- `_is_retryable_status` (lines 294-295). -/
def isRetryableStatus (status : ℕ) : Bool :=
  status ≥ 500 || status = 429

/-- One outcome of a POST inside `graphql_query`: an HTTP response
(status, raw body text, and the body as `_try_parse_payload` would
return it — `some` object for a JSON-object body, `none` otherwise), or
an `aiohttp.ClientError` / `asyncio.TimeoutError`. -/
inductive HttpOutcome where
  | response : ℕ → String → Option (List (String × PyObj)) → HttpOutcome
  | clientError : String → HttpOutcome
deriving Inhabited

/-- Externally visible actions of one `graphql_query` call, in program
order: session creation/check, HTTP POSTs, and backoff sleeps. -/
inductive GqlEffect where
  | sessionEnsured : GqlEffect
  | httpPost : GqlEffect
  | sleep : ℚ → GqlEffect

/-- The retry loop of `graphql_query` (lines 103-167), driven by the
outcome oracle; `attempt` is the loop index. Effects are recorded in
order. `response.ok` has aiohttp semantics: true iff the status is
below 400. -/
def gqlQueryLoop (maxRetries : ℕ) (retryDelay : ℚ)
    (net : List HttpOutcome) (attempt : ℕ) (fuel : ℕ) :
    Except ToolError Envelope × List GqlEffect :=
  match fuel with
  | 0 => (.error (.network "GraphQL request failed without making any attempts"), [])
  | fuel + 1 =>
    match net.headD (.clientError "connection failed") with
    | .clientError m =>
        if attempt + 1 < maxRetries then
          let (r, effs) := gqlQueryLoop maxRetries retryDelay net.tail (attempt + 1) fuel
          (r, .httpPost :: .sleep (retryDelay * 2 ^ attempt) :: effs)
        else
          (.error (.network ("GraphQL request failed: " ++ m)), [.httpPost])
    | .response status text payload =>
        if status < 400 then
          match payload with
          | Option.none =>
              (.ok { status := "error", result := .none,
                     message := .list [.dict [("message",
                       .str "Non-JSON response from GraphQL endpoint")]] },
               [.httpPost])
          | some p => (.ok (wrapQueryResult p), [.httpPost])
        else
          if isRetryableStatus status ∧ attempt + 1 < maxRetries then
            let (r, effs) := gqlQueryLoop maxRetries retryDelay net.tail (attempt + 1) fuel
            (r, .httpPost :: .sleep (retryDelay * 2 ^ attempt) :: effs)
          else
            match payload with
            | some p =>
                if dictHas p "errors" || dictHas p "data" then
                  (.ok (wrapQueryResult p), [.httpPost])
                else
                  (.ok { status := "error", result := .none,
                         message := .list [.dict [("message", .str text)]] },
                   [.httpPost])
            | Option.none =>
                (.ok { status := "error", result := .none,
                       message := .list [.dict [("message", .str text)]] },
                 [.httpPost])

/-- `GraphqlApi.graphql_query` (lines 73-167) as an effect-traced
function: the mutation pre-check runs first and raises a
`ValidationError` with no effects at all; only then is the session
ensured and the retry loop entered. The cache is never consulted. -/
def graphqlQueryModel (maxRetries : ℕ) (retryDelay : ℚ)
    (queryString : String) (net : List HttpOutcome) :
    Except ToolError Envelope × List GqlEffect :=
  if containsMutation queryString then
    (.error (.validation "graphql_query does not support mutations."), [])
  else
    let (r, effs) := gqlQueryLoop maxRetries retryDelay net 0 maxRetries
    (r, .sessionEnsured :: effs)

/-- `MAX_GRAPHQL_BATCH_ITEMS` (line 36). -/
def maxGraphqlBatchItems : ℕ := 500

/-- `MAX_GRAPHQL_BATCH_CONCURRENCY` (line 37). -/
def maxGraphqlBatchConcurrency : ℕ := 20

/-- One entry of the `results` list of `graphql_batch_query`
(lines 241-245). -/
structure BatchItemResult where
  index : ℕ
  key : Option String
  result : Envelope

/-- The `summary` block of `graphql_batch_query` (lines 264-269). -/
structure BatchSummary where
  total : ℕ
  successful : ℕ
  warning : ℕ
  failed : ℕ
deriving DecidableEq

/-- The value returned by `graphql_batch_query` (lines 262-271). -/
structure BatchOutcome where
  status : String
  summary : BatchSummary
  results : List BatchItemResult

/-- `GraphqlApi.graphql_batch_query`, lines 241-249: the `results` list
`asyncio.gather` produces, in input order. The per-item gateway outcome
is an oracle `gateway` mapping the item index and variables to the
envelope `run_single` stores (covering both a normal `graphql_query`
envelope and the `except`-branch error envelope). A falsy (empty)
`key_field` is ignored, as in `key_field and key_field in item`. -/
def batchResults (variablesList : List (List (String × PyObj)))
    (keyField : Option String)
    (gateway : ℕ → List (String × PyObj) → Envelope) :
    List BatchItemResult :=
  variablesList.enum.map fun p =>
    { index := p.1,
      key := match keyField with
        | some kf =>
            if kf.isEmpty then Option.none else (dictGet p.2 kf).map pyStr
        | Option.none => Option.none,
      result := gateway p.1 p.2 }

/-- Lines 251-271: tally the per-item envelope statuses and derive the
overall status. -/
def batchAggregate (results : List BatchItemResult) : BatchOutcome :=
  let successful := results.countP fun item => item.result.status = "success"
  let warning := results.countP fun item => item.result.status = "warning"
  let failed := results.countP fun item => item.result.status = "error"
  let overall :=
    if failed ≠ 0 then
      if successful ≠ 0 ∨ warning ≠ 0 then "warning" else "error"
    else if warning ≠ 0 then "warning"
    else "success"
  { status := overall,
    summary := { total := results.length, successful := successful,
                 warning := warning, failed := failed },
    results := results }

/-- The whole of `graphql_batch_query`: validation, fan-out, tally. -/
def graphqlBatchQueryModel (variablesList : List (List (String × PyObj)))
    (keyField : Option String) (maxConcurrency : ℕ)
    (gateway : ℕ → List (String × PyObj) → Envelope) :
    Except ToolError BatchOutcome :=
  if variablesList.isEmpty then
    .error (.validation "variables_list cannot be empty.")
  else if variablesList.length > maxGraphqlBatchItems then
    .error (.validation "variables_list cannot exceed 500 items.")
  else if maxConcurrency < 1 then
    .error (.validation "max_concurrency must be >= 1.")
  else if maxConcurrency > maxGraphqlBatchConcurrency then
    .error (.validation "max_concurrency must be <= 20.")
  else
    .ok (batchAggregate (batchResults variablesList keyField gateway))

/-!
## Embedding of `src/opentargets_mcp/tools/workflows.py`
(`WorkflowApi.get_drug_repurposing_candidates`, lines 183-270)

The stage embedded here starts from `target_drug_sets`: the list of
(selected target row, known-drug rows) pairs that survived the drug
lookups (order preserved by `asyncio.gather`). Python's
`list.sort`/`sorted` with `reverse=True` is a stable descending sort by
the key tuple; `List.insertionSort` with the reflexive "key not
smaller" relation below computes exactly that (both are stable, both
descending, and a stable sort is unique). `candidates_by_drug` is a
CPython dict, i.e. an insertion-ordered association list.
-/

/-- Lexicographic "less or equal" on a pair whose first component is
linearly ordered and whose second is compared by `le2`. -/
def lexLe {α β : Type} [LinearOrder α] (le2 : β → β → Prop) (x y : α × β) :
    Prop :=
  x.1 < y.1 ∨ (x.1 = y.1 ∧ le2 x.2 y.2)



/-- An entry of `selected_targets` (lines 146-153). -/
structure WTarget where
  targetId : String
  targetSymbol : Option String
  associationScore : ℚ
deriving DecidableEq

/-- The `drug` object of a known-drug row, with every field optional as
in the JSON payload. -/
structure WDrug where
  id : Option String
  name : Option String
  drugType : Option String
  isApproved : Option Bool
  maximumClinicalTrialPhase : Option ℤ
deriving DecidableEq

/-- One row of `target.knownDrugs.rows` as the aggregation reads it. -/
structure KnownDrugRow where
  drug : Option WDrug
  drugId : Option String
  phase : Option ℤ
  status : Option String
  mechanismOfAction : Option String
deriving DecidableEq

/-- One element of `target_drug_sets` (line 170): a selected target and
its fetched known-drug rows. -/
structure TargetDrugSet where
  target : WTarget
  knownDrugs : List KnownDrugRow
deriving DecidableEq

/-- A `supportingTargets` entry (lines 211-218). -/
structure SupportRow where
  targetId : String
  targetSymbol : Option String
  associationScore : ℚ
  phase : ℤ
  status : Option String
  mechanismOfAction : Option String
deriving DecidableEq

/-- A `candidates_by_drug` value before finalisation (lines 221-234):
the embedded `drug` sub-dict is flattened into the candidate. -/
structure AggCandidate where
  drugId : String
  drugName : Option String
  drugType : Option String
  isApproved : Bool
  maximumClinicalTrialPhase : Option ℤ
  bestAssociationScore : ℚ
  bestPhase : ℤ
  supportingTargets : List SupportRow
deriving DecidableEq

/-- A finalised candidate (lines 245-259): `supportingTargets` sorted,
`supportingTargetCount` computed. -/
structure FinalCandidate where
  drugId : String
  drugName : Option String
  drugType : Option String
  isApproved : Bool
  maximumClinicalTrialPhase : Option ℤ
  bestAssociationScore : ℚ
  bestPhase : ℤ
  supportingTargets : List SupportRow
  supportingTargetCount : ℕ
deriving DecidableEq

/-- Python `a or b` on two optional strings, where `None` and `""` are
falsy. -/
def pyOrStr (a b : Option String) : Option String :=
  match a with
  | some s => if s.isEmpty then b else some s
  | Option.none => b

/-- `drug_id = drug.get("id") or row.get("drugId")` followed by
`if not drug_id: continue` (lines 196-198): the identifier the row is
aggregated under, `none` when the row is skipped. -/
def rowDrugId (row : KnownDrugRow) : Option String :=
  match pyOrStr ((row.drug.map (·.id)).getD Option.none) row.drugId with
  | some s => if s.isEmpty then Option.none else some s
  | Option.none => Option.none

/-- `phase = row.get("phase") or 0` (line 200) for an integer-or-absent
phase: a missing (or `None`) phase becomes 0, and `0 or 0` is 0. -/
def rowPhase (row : KnownDrugRow) : ℤ :=
  row.phase.getD 0

/-- `is_approved = bool(drug.get("isApproved"))` (line 206). -/
def rowIsApproved (row : KnownDrugRow) : Bool :=
  ((row.drug.map (·.isApproved)).getD Option.none).getD false

/-- Lines 192-243: fold one known-drug row of `target` into
`candidates_by_drug`. Rows with no usable drug id, rows below
`min_clinical_phase`, and (under `approved_only`) non-approved rows are
skipped; otherwise the row either creates a candidate or merges into
the existing one (max score, max phase, monotonic `isApproved`,
appended support row). -/
def processRow (minClinicalPhase : ℤ) (approvedOnly : Bool)
    (target : WTarget) (acc : List (String × AggCandidate))
    (row : KnownDrugRow) : List (String × AggCandidate) :=
  match rowDrugId row with
  | Option.none => acc
  | some did =>
    let phase := rowPhase row
    if phase < minClinicalPhase then acc
    else
      let isApp := rowIsApproved row
      if approvedOnly && !isApp then acc
      else
        let support : SupportRow :=
          { targetId := target.targetId,
            targetSymbol := target.targetSymbol,
            associationScore := target.associationScore,
            phase := phase,
            status := row.status,
            mechanismOfAction := row.mechanismOfAction }
        match dictGet acc did with
        | Option.none =>
            dictSet acc did
              { drugId := did,
                drugName := (row.drug.map (·.name)).getD Option.none,
                drugType := (row.drug.map (·.drugType)).getD Option.none,
                isApproved := isApp,
                maximumClinicalTrialPhase :=
                  (row.drug.map (·.maximumClinicalTrialPhase)).getD Option.none,
                bestAssociationScore := target.associationScore,
                bestPhase := phase,
                supportingTargets := [support] }
        | some existing =>
            dictSet acc did
              { existing with
                bestAssociationScore :=
                  max existing.bestAssociationScore target.associationScore,
                bestPhase := max existing.bestPhase phase,
                isApproved := existing.isApproved || isApp,
                supportingTargets := existing.supportingTargets ++ [support] }

/-- Lines 186-243: aggregate every target's known-drug rows (each list
truncated by `known_drugs[:max_drugs_per_target]`) into
`candidates_by_drug`, in input order. -/
def aggregateCandidates (minClinicalPhase : ℤ) (approvedOnly : Bool)
    (maxDrugsPerTarget : ℕ) (sets : List TargetDrugSet) :
    List (String × AggCandidate) :=
  sets.foldl
    (fun acc item =>
      (item.knownDrugs.take maxDrugsPerTarget).foldl
        (processRow minClinicalPhase approvedOnly item.target) acc)
    []

/-- The sort key of a `supportingTargets` entry (lines 250-253). -/
def suppSortKey (e : SupportRow) : ℚ × ℤ :=
  (e.associationScore, e.phase)

/-- Lexicographic order on the `(associationScore, phase)` key, as
Python compares the tuple. -/
def suppKeyLe (x y : ℚ × ℤ) : Prop :=
  lexLe (· ≤ ·) x y

/-- `a` may precede `b` in the descending stable sort of supporting
targets: `b`'s key is not lexicographically above `a`'s. -/
def suppDescBefore (a b : SupportRow) : Prop :=
  suppKeyLe (suppSortKey b) (suppSortKey a)

instance : DecidableRel suppDescBefore := fun a b => by
  unfold suppDescBefore suppKeyLe lexLe; infer_instance

/-- Lines 245-259: sort the support rows descending by
`(associationScore, phase)` and count the distinct `targetId`s of the
pre-sort row list. -/
def finalizeCandidate (c : AggCandidate) : FinalCandidate :=
  { drugId := c.drugId, drugName := c.drugName, drugType := c.drugType,
    isApproved := c.isApproved,
    maximumClinicalTrialPhase := c.maximumClinicalTrialPhase,
    bestAssociationScore := c.bestAssociationScore,
    bestPhase := c.bestPhase,
    supportingTargets := List.insertionSort suppDescBefore c.supportingTargets,
    supportingTargetCount :=
      ((c.supportingTargets.map (·.targetId)).dedup).length }

/-- The ranking key tuple of lines 262-267. -/
def candSortKey (c : FinalCandidate) : Bool × ℚ × ℤ × ℕ :=
  (c.isApproved, c.bestAssociationScore, c.bestPhase, c.supportingTargetCount)

/-- Lexicographic order on the inner `(bestPhase, supportingTargetCount)`
key pair. -/
def candKeyLe3 (x y : ℤ × ℕ) : Prop :=
  lexLe (· ≤ ·) x y

/-- Lexicographic order on
`(bestAssociationScore, bestPhase, supportingTargetCount)`. -/
def candKeyLe2 (x y : ℚ × ℤ × ℕ) : Prop :=
  lexLe candKeyLe3 x y

/-- Lexicographic order on the full ranking key tuple, as Python
compares it. -/
def candKeyLe (x y : Bool × ℚ × ℤ × ℕ) : Prop :=
  lexLe candKeyLe2 x y

/-- `a` may precede `b` in the final descending stable ranking sort. -/
def candDescBefore (a b : FinalCandidate) : Prop :=
  candKeyLe (candSortKey b) (candSortKey a)

instance : DecidableRel candDescBefore := fun a b => by
  unfold candDescBefore candKeyLe candKeyLe2 candKeyLe3 lexLe; infer_instance

/-- Lines 245-270: finalise the aggregated candidates in dict-value
order, sort descending by
`(isApproved, bestAssociationScore, bestPhase, supportingTargetCount)`
and truncate to `max_candidates`. -/
def drugRepurposingCandidates (minClinicalPhase : ℤ) (approvedOnly : Bool)
    (maxDrugsPerTarget : ℕ) (maxCandidates : ℕ)
    (sets : List TargetDrugSet) : List FinalCandidate :=
  (List.insertionSort candDescBefore
    ((aggregateCandidates minClinicalPhase approvedOnly maxDrugsPerTarget
        sets).map (fun kv => finalizeCandidate kv.2))).take maxCandidates

/-!
## Concrete inputs used in the witnesses and counterexample evaluations
-/

/-- The association score 0.91 of the workflow-ranking scenario, as an
exact rational. -/
def score091 : ℚ := ⟨91, 100, by decide, by decide⟩

/-- The association score 0.74 of the workflow-ranking scenario, as an
exact rational. -/
def score074 : ℚ := ⟨37, 50, by decide, by decide⟩

/-- Scenario target 1: association score 0.91. -/
def wt1 : WTarget :=
  { targetId := "ENSG0001", targetSymbol := some "T1",
    associationScore := score091 }

/-- Scenario target 2: association score 0.74. -/
def wt2 : WTarget :=
  { targetId := "ENSG0002", targetSymbol := some "T2",
    associationScore := score074 }

/-- Drug A as reported under target 1: phase 4, approved. -/
def wDrugA : WDrug :=
  { id := some "CHEMBL_A", name := some "Drug A",
    drugType := some "small molecule", isApproved := some true,
    maximumClinicalTrialPhase := some 4 }

/-- Drug A as reported under target 2: not approved there. -/
def wDrugA2 : WDrug :=
  { wDrugA with isApproved := some false }

/-- Drug B: phase 1, not approved. -/
def wDrugB : WDrug :=
  { id := some "CHEMBL_B", name := some "Drug B",
    drugType := some "small molecule", isApproved := some false,
    maximumClinicalTrialPhase := some 1 }

/-- Drug C: phase 2, not approved. -/
def wDrugC : WDrug :=
  { id := some "CHEMBL_C", name := some "Drug C",
    drugType := some "small molecule", isApproved := some false,
    maximumClinicalTrialPhase := some 2 }

/-- Target 1 supports drug A at phase 4. -/
def rowA1 : KnownDrugRow :=
  { drug := some wDrugA, drugId := some "CHEMBL_A", phase := some 4,
    status := some "Completed", mechanismOfAction := Option.none }

/-- Target 1 supports drug B at phase 1. -/
def rowB : KnownDrugRow :=
  { drug := some wDrugB, drugId := some "CHEMBL_B", phase := some 1,
    status := Option.none, mechanismOfAction := Option.none }

/-- Target 2 supports drug A at phase 3. -/
def rowA2 : KnownDrugRow :=
  { drug := some wDrugA2, drugId := some "CHEMBL_A", phase := some 3,
    status := Option.none, mechanismOfAction := Option.none }

/-- Target 2 supports drug C at phase 2. -/
def rowC : KnownDrugRow :=
  { drug := some wDrugC, drugId := some "CHEMBL_C", phase := some 2,
    status := Option.none, mechanismOfAction := Option.none }

/-- The `target_drug_sets` of the workflow-ranking scenario. -/
def scenarioSets : List TargetDrugSet :=
  [ { target := wt1, knownDrugs := [rowA1, rowB] },
    { target := wt2, knownDrugs := [rowA2, rowC] } ]

/-- The ranked candidate the scenario produces for drug A: approved,
best score 0.91, best phase 4, two distinct supporting targets. -/
def candAExpected : FinalCandidate :=
  { drugId := "CHEMBL_A", drugName := some "Drug A",
    drugType := some "small molecule", isApproved := true,
    maximumClinicalTrialPhase := some 4,
    bestAssociationScore := score091, bestPhase := 4,
    supportingTargets :=
      [ { targetId := "ENSG0001", targetSymbol := some "T1",
          associationScore := score091, phase := 4,
          status := some "Completed", mechanismOfAction := Option.none },
        { targetId := "ENSG0002", targetSymbol := some "T2",
          associationScore := score074, phase := 3,
          status := Option.none, mechanismOfAction := Option.none } ],
    supportingTargetCount := 2 }

/-- The ranked candidate the scenario produces for drug C. -/
def candCExpected : FinalCandidate :=
  { drugId := "CHEMBL_C", drugName := some "Drug C",
    drugType := some "small molecule", isApproved := false,
    maximumClinicalTrialPhase := some 2,
    bestAssociationScore := score074, bestPhase := 2,
    supportingTargets :=
      [ { targetId := "ENSG0002", targetSymbol := some "T2",
          associationScore := score074, phase := 2,
          status := Option.none, mechanismOfAction := Option.none } ],
    supportingTargetCount := 1 }

/-- A 2xx response body carrying both a GraphQL `errors` array and a
usable `data` object, as the remote API returns for queries on
nonexistent identifiers. -/
def partialBody : List (String × PyObj) :=
  [("errors", .list [.dict [("message", .str "No disease found")]]),
   ("data", .dict [("target", .dict [("id", .str "ENSG0001")])])]

/-- A plain successful response body. -/
def okBody : List (String × PyObj) :=
  [("data", .dict [("target", .dict [("id", .str "ENSG0001")])])]

/-- The first `_query` call of the aliasing scenario: a cache miss whose
result object is allocated on the heap and cached by reference. -/
def c3FirstCall : OldQueryResult :=
  oldQuery oldInitialState "query Cached" Option.none 0 [.response okBody]

/-- The caller then mutates the structure the first call returned (the
heap object at the returned address), exactly as
`first["target"]["literatureOcurrences"]["rows"] = [1]` does in
`test_query_cache_returns_defensive_copy`. -/
def c3Mutated : OldClientState :=
  { c3FirstCall.state with
    heap := c3FirstCall.state.heap.set 0 (.dict [("data", .str "mutated")]) }

/-- The second `_query` call for the same (query, variables) pair, one
second later (well within the TTL): a cache hit. -/
def c3SecondCall : OldQueryResult :=
  oldQuery c3Mutated "query Cached" Option.none 1 []

/-- A client whose session was opened and then explicitly closed. -/
def closedClient : OldClientState :=
  oldClose (oldEnsureSession oldInitialState)

/-- Variables dict `{"a": 1, "b": 2}`. -/
def varsAB : List (String × PyObj) := [("a", .int 1), ("b", .int 2)]

/-- The same key-value map inserted in the opposite order. -/
def varsBA : List (String × PyObj) := [("b", .int 2), ("a", .int 1)]

/-- The comment-prefixed mutation of
`test_graphql_query_blocks_comment_prefixed_mutation`. -/
def mutationTestQuery : String :=
  "#comment\nmutation \x7b fakeMutation \x7d"

/-- Three variable sets for the batch witness. -/
def batchVars3 : List (List (String × PyObj)) :=
  [[("efoId", .str "EFO_1")], [("efoId", .str "EFO_2")],
   [("efoId", .str "EFO_3")]]

/-- A successful gateway envelope. -/
def successEnvelope : Envelope :=
  { status := "success", result := .dict [("meta", .none)], message := .none }

/-- A failed gateway envelope. -/
def errorEnvelope : Envelope :=
  { status := "error", result := .none,
    message := .list [.dict [("message", .str "boom")]] }

/-- A gateway oracle giving two successes followed by a failure. -/
def batchGateway3 (i : ℕ) (_vars : List (String × PyObj)) : Envelope :=
  if i < 2 then successEnvelope else errorEnvelope

/-- Three `_query` calls with three distinct queries, threaded through
the client state: every insertion grows `_cache`, nothing is ever
evicted. -/
def c4State3 : OldClientState :=
  (oldQuery (oldQuery (oldQuery oldInitialState "query A" Option.none 0
        [.response okBody]).state "query B" Option.none 1
      [.response okBody]).state "query C" Option.none 2
    [.response okBody]).state

/-!
## Order properties of the ranking relations
-/

/-- `lexLe` is total when its second-component order is. -/
theorem lexLe_total {α β : Type} [LinearOrder α] (le2 : β → β → Prop)
    (h : ∀ a b, le2 a b ∨ le2 b a) (x y : α × β) :
    lexLe le2 x y ∨ lexLe le2 y x := by
  rcases lt_trichotomy x.1 y.1 with hlt | heq | hgt
  · exact Or.inl (Or.inl hlt)
  · rcases h x.2 y.2 with h2 | h2
    · exact Or.inl (Or.inr ⟨heq, h2⟩)
    · exact Or.inr (Or.inr ⟨heq.symm, h2⟩)
  · exact Or.inr (Or.inl hgt)

/-- `lexLe` is transitive when its second-component order is. -/
theorem lexLe_trans {α β : Type} [LinearOrder α] (le2 : β → β → Prop)
    (h : ∀ a b c, le2 a b → le2 b c → le2 a c) (x y z : α × β)
    (hxy : lexLe le2 x y) (hyz : lexLe le2 y z) : lexLe le2 x z := by
  rcases hxy with hlt | ⟨heq, h2⟩
  · rcases hyz with hlt' | ⟨heq', _⟩
    · exact Or.inl (hlt.trans hlt')
    · exact Or.inl (heq' ▸ hlt)
  · rcases hyz with hlt' | ⟨heq', h2'⟩
    · exact Or.inl (heq ▸ hlt')
    · exact Or.inr ⟨heq.trans heq', h _ _ _ h2 h2'⟩

theorem suppKeyLe_total (x y : ℚ × ℤ) : suppKeyLe x y ∨ suppKeyLe y x := by
  unfold suppKeyLe
  exact lexLe_total (· ≤ ·) (fun a b => le_total a b) x y

theorem suppKeyLe_trans (x y z : ℚ × ℤ) (h : suppKeyLe x y)
    (h' : suppKeyLe y z) : suppKeyLe x z := by
  unfold suppKeyLe at h h' ⊢
  exact lexLe_trans (· ≤ ·) (fun _ _ _ hab hbc => le_trans hab hbc) x y z h h'

instance : IsTotal SupportRow suppDescBefore := by
  constructor
  intro a b
  unfold suppDescBefore
  exact (suppKeyLe_total _ _).symm

instance : IsTrans SupportRow suppDescBefore := by
  constructor
  intro a b c h h'
  unfold suppDescBefore at h h' ⊢
  exact suppKeyLe_trans _ _ _ h' h

theorem candKeyLe3_total (x y : ℤ × ℕ) : candKeyLe3 x y ∨ candKeyLe3 y x := by
  unfold candKeyLe3
  exact lexLe_total (· ≤ ·) (fun a b => le_total a b) x y

theorem candKeyLe2_total (x y : ℚ × ℤ × ℕ) :
    candKeyLe2 x y ∨ candKeyLe2 y x := by
  unfold candKeyLe2
  exact lexLe_total candKeyLe3 candKeyLe3_total x y

theorem candKeyLe_total (x y : Bool × ℚ × ℤ × ℕ) :
    candKeyLe x y ∨ candKeyLe y x := by
  unfold candKeyLe
  exact lexLe_total candKeyLe2 candKeyLe2_total x y

theorem candKeyLe3_trans (x y z : ℤ × ℕ) (h : candKeyLe3 x y)
    (h' : candKeyLe3 y z) : candKeyLe3 x z := by
  unfold candKeyLe3 at h h' ⊢
  exact lexLe_trans (· ≤ ·) (fun _ _ _ hab hbc => le_trans hab hbc) x y z h h'

theorem candKeyLe2_trans (x y z : ℚ × ℤ × ℕ) (h : candKeyLe2 x y)
    (h' : candKeyLe2 y z) : candKeyLe2 x z := by
  unfold candKeyLe2 at h h' ⊢
  exact lexLe_trans candKeyLe3 candKeyLe3_trans x y z h h'

theorem candKeyLe_trans (x y z : Bool × ℚ × ℤ × ℕ) (h : candKeyLe x y)
    (h' : candKeyLe y z) : candKeyLe x z := by
  unfold candKeyLe at h h' ⊢
  exact lexLe_trans candKeyLe2 candKeyLe2_trans x y z h h'

instance : IsTotal FinalCandidate candDescBefore := by
  constructor
  intro a b
  unfold candDescBefore
  exact (candKeyLe_total _ _).symm

instance : IsTrans FinalCandidate candDescBefore := by
  constructor
  intro a b c h h'
  unfold candDescBefore at h h' ⊢
  exact candKeyLe_trans _ _ _ h' h

/-!
## Claim theorems
-/

/-- C1: on a 2xx response whose JSON body contains both a GraphQL
`errors` array and a usable `data` field, `OpenTargetsClient._query`
does not return the `data` portion — it raises
`Exception("GraphQL errors: ...")` (lines 39-40 fire whenever the
`errors` key is present, before any `data` extraction). Evaluated at a
concrete partial-success body: `errors` is present and truthy `data` is
present, yet the call errors. -/
theorem old_query_partial_data_raises :
    dictHas partialBody "errors" = true ∧
    pyTruthy ((dictGet partialBody "data").getD .none) = true ∧
    (oldQuery oldInitialState "query TargetInfo" Option.none 0
        [.response partialBody]).result = .error .graphqlErrors :=
  ⟨rfl, rfl, rfl⟩

/-- C2: `_query` performs exactly one network attempt — no retry loop,
no backoff sleep, no `max_retries` configuration exists. On a transient
transport failure the exception propagates immediately (after 1 attempt
and 0 sleeps) even though the very next outcome on the wire would have
been a success, as the final conjunct shows. -/
theorem old_query_single_attempt_no_retry :
    (oldQuery oldInitialState "query Meta" Option.none 0
        [.transportError "timed out", .response okBody]).result
      = .error (.transport "timed out") ∧
    (oldQuery oldInitialState "query Meta" Option.none 0
        [.transportError "timed out", .response okBody]).attempts = 1 ∧
    (oldQuery oldInitialState "query Meta" Option.none 0
        [.transportError "timed out", .response okBody]).sleeps = [] ∧
    (oldQuery oldInitialState "query Meta" Option.none 0
        [.response okBody]).result = .ok 0 :=
  ⟨rfl, rfl, rfl, rfl⟩

/-- C3: the cache stores and returns the result object by reference
(no deep copy on either path), so both calls return the same heap
address (0), and after the caller mutates the structure returned by the
first call, the second call observes the mutated value instead of the
originally fetched body. -/
theorem old_query_cache_hit_aliases :
    c3FirstCall.result = .ok 0 ∧
    c3SecondCall.result = c3FirstCall.result ∧
    c3SecondCall.attempts = 0 ∧
    c3SecondCall.state.heap.get? 0 = some (.dict [("data", .str "mutated")]) ∧
    PyObj.dict [("data", .str "mutated")] ≠ PyObj.dict okBody := by
  refine ⟨rfl, rfl, rfl, rfl, ?_⟩
  simp [okBody]

/-- C4: the cache write `self._cache[cache_key] = (result, time)` never
removes an entry — there is no `cache_max_entries` bound and no LRU
bookkeeping. In general a write never shrinks the cache, and concretely
three inserts into the (unbounded) cache leave three live entries. -/
theorem old_cache_never_evicts :
    (∀ (cache : List (String × (ℕ × ℤ))) (k : String) (v : ℕ × ℤ),
        cache.length ≤ (dictSet cache k v).length) ∧
    c4State3.cache.length = 3 ∧
    dictHas c4State3.cache (oldCacheKey "query A" Option.none) = true ∧
    dictHas c4State3.cache (oldCacheKey "query B" Option.none) = true ∧
    dictHas c4State3.cache (oldCacheKey "query C" Option.none) = true := by
  refine ⟨?_, rfl, rfl, rfl, rfl⟩
  intro cache k v
  induction cache with
  | nil => simp [dictSet]
  | cons hd tl ih =>
      obtain ⟨k', v'⟩ := hd
      simp only [dictSet]
      split
      · simp
      · simpa using ih

/-- C5: `close()` closes the session object but leaves `self.session`
pointing at it — the field is not `None` afterwards, so the next
`_query` does not create a fresh session: it issues its POST on the
already-closed session. -/
theorem old_close_session_not_none :
    closedClient.session = some { closed := true } ∧
    closedClient.session ≠ Option.none ∧
    (oldQuery closedClient "query Meta" Option.none 0
        [.response okBody]).usedSession = some { closed := true } ∧
    (oldQuery closedClient "query Meta" Option.none 0
        [.response okBody]).state.session = some { closed := true } := by
  refine ⟨rfl, ?_, rfl, rfl⟩
  simp [closedClient, oldClose, oldEnsureSession, oldInitialState]

/-- C6: the cache key `f"{query}:{str(variables)}"` depends on dict
insertion order: `varsAB` and `varsBA` are equal as key-value maps (and
permutations of each other) yet produce different fingerprints. -/
theorem old_cache_key_insertion_order_dependent :
    varsAB.Perm varsBA ∧
    (∀ k, dictGet varsAB k = dictGet varsBA k) ∧
    oldCacheKey "query SearchTargets" (some varsAB)
      ≠ oldCacheKey "query SearchTargets" (some varsBA) := by
  refine ⟨List.Perm.swap _ _ _, ?_, by decide⟩
  intro k
  by_cases h1 : "a" = k
  · by_cases h2 : "b" = k
    · exact absurd (h1.trans h2.symm) (by decide)
    · simp [varsAB, varsBA, dictGet, h1, h2]
  · by_cases h2 : "b" = k
    · simp [varsAB, varsBA, dictGet, h1, h2]
    · simp [varsAB, varsBA, dictGet, h1, h2]

/-- C7: for every query string that parses to a document containing a
mutation operation at the root — leading comment lines are skipped by
the lexer — `graphql_query` returns the
`ValidationError("graphql_query does not support mutations.")`
synchronously, with an empty effect trace: no session is ensured, no
POST is issued, no sleep happens. -/
theorem graphql_query_rejects_mutation_before_network
    (maxRetries : ℕ) (retryDelay : ℚ) (s : String) (net : List HttpOutcome)
    (ds : List GDefinition) (hparse : parseDocument s = some ds)
    (hmem : GDefinition.operation .mutation ∈ ds) :
    graphqlQueryModel maxRetries retryDelay s net =
      (.error (.validation "graphql_query does not support mutations."), []) := by
  have hcm : containsMutation s = true := by
    unfold containsMutation
    rw [hparse]
    simp only [List.any_eq_true]
    exact ⟨.operation .mutation, hmem, rfl⟩
  simp [graphqlQueryModel, hcm]

/-- Witness for C7 at the comment-prefixed mutation of the regression
test: the hypotheses hold by computation and the rejection theorem
applies. -/
theorem graphql_query_rejects_mutation_witness :
    graphqlQueryModel 3 1 mutationTestQuery
        [.response 200 "ok" (some okBody)] =
      (.error (.validation "graphql_query does not support mutations."), []) :=
  graphql_query_rejects_mutation_before_network 3 1 mutationTestQuery
    [.response 200 "ok" (some okBody)] [.operation .mutation]
    (by decide) (by decide)

/-- Every batch item whose envelope status is one of the three gateway
statuses is counted exactly once across the three tallies. -/
theorem batch_count_partition (l : List BatchItemResult)
    (h : ∀ r ∈ l, r.result.status = "success" ∨ r.result.status = "warning" ∨
      r.result.status = "error") :
    (l.countP fun r => r.result.status = "success") +
      (l.countP fun r => r.result.status = "warning") +
      (l.countP fun r => r.result.status = "error") = l.length := by
  induction l with
  | nil => simp
  | cons hd tl ih =>
      have hh := h hd (List.mem_cons_self _ _)
      have ht : ∀ r ∈ tl, r.result.status = "success" ∨
          r.result.status = "warning" ∨ r.result.status = "error" :=
        fun r hr => h r (List.mem_cons_of_mem _ hr)
      have ih' := ih ht
      rcases hh with h1 | h1 | h1 <;>
        simp only [List.countP_cons, List.length_cons, h1,
          decide_eq_true_eq] <;>
        simp_all <;> omega

/-- C8: for every non-empty `variables_list` within the batch limits
(and a gateway whose envelopes carry one of the three statuses, as
`graphql_query` guarantees), `graphql_batch_query` succeeds with a
summary whose `total` is the item count and whose
`successful`/`warning`/`failed` fields tally the per-item envelope
statuses; the overall status is `error` exactly when every item failed,
`warning` exactly when a failure coexists with a success or some item
carries a warning, and `success` otherwise. -/
theorem graphql_batch_query_summary_correct
    (vl : List (List (String × PyObj))) (kf : Option String) (mc : ℕ)
    (gw : ℕ → List (String × PyObj) → Envelope)
    (hne : vl ≠ []) (hlen : vl.length ≤ maxGraphqlBatchItems)
    (hmc1 : 1 ≤ mc) (hmc2 : mc ≤ maxGraphqlBatchConcurrency)
    (hgw : ∀ i item, (gw i item).status = "success" ∨
      (gw i item).status = "warning" ∨ (gw i item).status = "error") :
    ∃ out, graphqlBatchQueryModel vl kf mc gw = .ok out ∧
      out.summary.total = vl.length ∧
      out.summary.successful =
        out.results.countP (fun r => r.result.status = "success") ∧
      out.summary.warning =
        out.results.countP (fun r => r.result.status = "warning") ∧
      out.summary.failed =
        out.results.countP (fun r => r.result.status = "error") ∧
      (out.status = "error" ↔ ∀ r ∈ out.results, r.result.status = "error") ∧
      (out.status = "warning" ↔
        ((out.summary.failed ≠ 0 ∧ out.summary.successful ≠ 0) ∨
          out.summary.warning ≠ 0)) ∧
      (out.status = "success" ↔
        out.summary.failed = 0 ∧ out.summary.warning = 0) := by
  have hvempty : vl.isEmpty = false := by
    cases vl with
    | nil => exact absurd rfl hne
    | cons a l => rfl
  have h1 : ¬ vl.length > maxGraphqlBatchItems := by omega
  have h2 : ¬ mc < 1 := by omega
  have h3 : ¬ mc > maxGraphqlBatchConcurrency := by omega
  refine ⟨batchAggregate (batchResults vl kf gw), ?_, ?_⟩
  · simp [graphqlBatchQueryModel, hvempty, h1, h2, h3]
  set results := batchResults vl kf gw with hres
  have hmemstat : ∀ r ∈ results, r.result.status = "success" ∨
      r.result.status = "warning" ∨ r.result.status = "error" := by
    intro r hr
    rw [hres] at hr
    unfold batchResults at hr
    obtain ⟨p, _, rfl⟩ := List.mem_map.mp hr
    exact hgw p.1 p.2
  have hlenres : results.length = vl.length := by
    rw [hres]; unfold batchResults
    simp [List.enum_length]
  have hpart := batch_count_partition results hmemstat
  set sCount := results.countP fun r => r.result.status = "success" with hsC
  set wCount := results.countP fun r => r.result.status = "warning" with hwC
  set fCount := results.countP fun r => r.result.status = "error" with hfC
  have hnnil : results.length ≠ 0 := by
    rw [hlenres]
    have := List.length_pos.mpr hne
    omega
  have houtres : (batchAggregate results).results = results := rfl
  have hall : (∀ r ∈ results, r.result.status = "error") ↔
      fCount = results.length := by
    constructor
    · intro hall
      rw [hfC]
      rw [List.countP_eq_length]
      intro r hr
      simpa using hall r hr
    · intro hflen r hr
      rw [hfC, List.countP_eq_length] at hflen
      simpa using hflen r hr
  refine ⟨?_, rfl, rfl, rfl, ?_, ?_, ?_⟩
  · simpa [batchAggregate] using hlenres
  · -- error ↔ all failed
    show (batchAggregate results).status = "error" ↔ _
    rw [houtres, hall]
    unfold batchAggregate
    by_cases hf : fCount = 0 <;> by_cases hs : sCount = 0 <;>
      by_cases hw : wCount = 0 <;>
      simp only [hsC.symm, hwC.symm, hfC.symm] at * <;>
      simp [hf, hs, hw] <;> omega
  · -- warning ↔ (failed ∧ success) ∨ warning present
    show (batchAggregate results).status = "warning" ↔ _
    unfold batchAggregate
    by_cases hf : fCount = 0 <;> by_cases hs : sCount = 0 <;>
      by_cases hw : wCount = 0 <;>
      simp only [hsC.symm, hwC.symm, hfC.symm] at * <;>
      simp [hf, hs, hw]
  · -- success ↔ no failure and no warning
    show (batchAggregate results).status = "success" ↔ _
    unfold batchAggregate
    by_cases hf : fCount = 0 <;> by_cases hs : sCount = 0 <;>
      by_cases hw : wCount = 0 <;>
      simp only [hsC.symm, hwC.symm, hfC.symm] at * <;>
      simp [hf, hs, hw]

/-- Witness for C8: two successful items and one failing item yield
`summary = {total: 3, successful: 2, warning: 0, failed: 1}` and overall
status `warning`; the general theorem applies at this input. -/
theorem graphql_batch_query_summary_witness :
    (∃ out, graphqlBatchQueryModel batchVars3 Option.none 4 batchGateway3 =
        .ok out ∧
      out.summary.total = batchVars3.length ∧
      out.summary.successful =
        out.results.countP (fun r => r.result.status = "success") ∧
      out.summary.warning =
        out.results.countP (fun r => r.result.status = "warning") ∧
      out.summary.failed =
        out.results.countP (fun r => r.result.status = "error") ∧
      (out.status = "error" ↔ ∀ r ∈ out.results, r.result.status = "error") ∧
      (out.status = "warning" ↔
        ((out.summary.failed ≠ 0 ∧ out.summary.successful ≠ 0) ∨
          out.summary.warning ≠ 0)) ∧
      (out.status = "success" ↔
        out.summary.failed = 0 ∧ out.summary.warning = 0)) ∧
    (graphqlBatchQueryModel batchVars3 Option.none 4 batchGateway3).map
        (fun o => (o.summary, o.status)) =
      .ok ({ total := 3, successful := 2, warning := 0, failed := 1 },
        "warning") := by
  constructor
  · refine graphql_batch_query_summary_correct batchVars3 Option.none 4
      batchGateway3 (by simp [batchVars3]) (by decide) (by decide)
      (by decide) ?_
    intro i item
    by_cases h : i < 2 <;> simp [batchGateway3, h, successEnvelope, errorEnvelope]
  · rfl

/-- C9: the final candidate list is sorted descending by the key tuple
`(isApproved, bestAssociationScore, bestPhase, supportingTargetCount)`
(first conjunct: every earlier candidate's key dominates every later
one's; second conjunct: in particular an approved candidate never
appears after a non-approved one, regardless of score), and in the
concrete scenario — target 1 (score 0.91) supporting A (phase 4,
approved) and B (phase 1), target 2 (score 0.74) supporting A (phase 3,
not approved) and C (phase 2), with `min_clinical_phase = 2` — the
ranked list is exactly `[A, C]`: B is dropped for phase, A's
`supportingTargetCount` is 2, and A (approved) ranks before the
higher-indexed C. -/
theorem drug_repurposing_ranking_correct :
    (∀ (mp : ℤ) (ao : Bool) (mdpt mc : ℕ) (sets : List TargetDrugSet),
        (drugRepurposingCandidates mp ao mdpt mc sets).Pairwise
          candDescBefore) ∧
    (∀ (mp : ℤ) (ao : Bool) (mdpt mc : ℕ) (sets : List TargetDrugSet),
        (drugRepurposingCandidates mp ao mdpt mc sets).Pairwise
          (fun a b => b.isApproved → a.isApproved)) ∧
    drugRepurposingCandidates 2 false 30 50 scenarioSets =
      [candAExpected, candCExpected] ∧
    candAExpected.supportingTargetCount = 2 ∧
    candAExpected.isApproved = true ∧
    candCExpected.isApproved = false := by
  have hsorted : ∀ (mp : ℤ) (ao : Bool) (mdpt mc : ℕ)
      (sets : List TargetDrugSet),
      (drugRepurposingCandidates mp ao mdpt mc sets).Pairwise
        candDescBefore := by
    intro mp ao mdpt mc sets
    unfold drugRepurposingCandidates
    exact (List.sorted_insertionSort candDescBefore _).sublist
      (List.take_sublist _ _)
  refine ⟨hsorted, ?_, by decide, rfl, rfl, rfl⟩
  intro mp ao mdpt mc sets
  refine (hsorted mp ao mdpt mc sets).imp ?_
  intro a b h happ
  unfold candDescBefore candKeyLe lexLe at h
  rcases h with hlt | ⟨heq, _⟩
  · simp only [candSortKey] at hlt
    rw [Bool.lt_iff] at hlt
    exact absurd hlt.1 (by simp [happ])
  · simp only [candSortKey] at heq
    rw [← heq]
    exact happ

/-- C10: every returned candidate's `supportingTargetCount` is the
number of distinct `targetId`s among its supporting rows (duplicate
rows from the same target count once), and is therefore at most the
length of its `supportingTargets` list. -/
theorem supporting_target_count_distinct
    (mp : ℤ) (ao : Bool) (mdpt mc : ℕ) (sets : List TargetDrugSet)
    (c : FinalCandidate)
    (hc : c ∈ drugRepurposingCandidates mp ao mdpt mc sets) :
    c.supportingTargetCount =
      ((c.supportingTargets.map SupportRow.targetId).dedup).length ∧
    c.supportingTargetCount ≤ c.supportingTargets.length := by
  unfold drugRepurposingCandidates at hc
  have h1 : c ∈ List.insertionSort candDescBefore
      ((aggregateCandidates mp ao mdpt sets).map
        (fun kv => finalizeCandidate kv.2)) :=
    (List.take_sublist _ _).subset hc
  have h2 : c ∈ (aggregateCandidates mp ao mdpt sets).map
      (fun kv => finalizeCandidate kv.2) :=
    (List.perm_insertionSort candDescBefore _).mem_iff.mp h1
  obtain ⟨kv, _, rfl⟩ := List.mem_map.mp h2
  have hperm : List.Perm
      (List.insertionSort suppDescBefore kv.2.supportingTargets)
      kv.2.supportingTargets := List.perm_insertionSort _ _
  constructor
  · show ((kv.2.supportingTargets.map (·.targetId)).dedup).length =
      (((List.insertionSort suppDescBefore
        kv.2.supportingTargets).map SupportRow.targetId).dedup).length
    exact (((hperm.map SupportRow.targetId).dedup).length_eq).symm
  · show ((kv.2.supportingTargets.map (·.targetId)).dedup).length ≤
      (List.insertionSort suppDescBefore kv.2.supportingTargets).length
    calc ((kv.2.supportingTargets.map (·.targetId)).dedup).length
        ≤ (kv.2.supportingTargets.map (·.targetId)).length :=
          (List.dedup_sublist _).length_le
      _ = kv.2.supportingTargets.length := List.length_map _ _
      _ = (List.insertionSort suppDescBefore
            kv.2.supportingTargets).length := hperm.length_eq.symm

/-- Witness for C10 at the ranking scenario: candidate A is in the
output (by computation) and the theorem yields its count facts. -/
theorem supporting_target_count_distinct_witness :
    candAExpected ∈ drugRepurposingCandidates 2 false 30 50 scenarioSets ∧
    (candAExpected.supportingTargetCount =
        ((candAExpected.supportingTargets.map SupportRow.targetId).dedup).length ∧
      candAExpected.supportingTargetCount ≤
        candAExpected.supportingTargets.length) :=
  ⟨by decide,
    supporting_target_count_distinct 2 false 30 50 scenarioSets
      candAExpected (by decide)⟩
